import Mathlib

/-!
Shallow embedding of the screenshot-service worker core:
the record-store adapter (dynamodbService), the object-store adapter
(s3Service), the renderer entry point (screenshotService.captureScreenshot),
the enqueuer lambda URL normalization, and the message coordinator
(sqsConsumer.handleMessage).

Timestamps are naturals (milliseconds).  The record store is an association
list keyed by record id.  External effects (the actual browser render, the
S3 PUT, the failure-path DynamoDB write) are injected through an environment
so that every control path of handleMessage is a total function.
-/

namespace Screenshot

/-- Staleness bound used by handleMessage: 10 * 60 * 1000 ms (10 minutes). -/
def T_staleMs : Nat := 10 * 60 * 1000

/-- config.screenshot.defaultWidth (SCREENSHOT_WIDTH default 1920). -/
def defaultWidth : Nat := 1920

/-- config.screenshot.defaultHeight (SCREENSHOT_HEIGHT default 1080). -/
def defaultHeight : Nat := 1080

/-- config.s3.screenshotPrefix default value. -/
def screenshotPrefix : String := "screenshots/"

/-- Message of the error thrown by handleMessage when the body has no url. -/
def urlRequiredError : String := "URL is required in message body"

/-- Error surfaced by the DynamoDB client when GetCommand receives an absent
or empty key value (marshalled away by removeUndefinedValues /
convertEmptyValues): the read fails before touching the table. -/
def dynamoKeyError : String :=
  "ValidationException: The provided key element does not match the schema"

/-- JS expression v || null on an optional string attribute value: an
absent value and the empty string both become null. -/
def orNull : Option String → Option String
  | none => none
  | some s => if s = "" then none else some s

/-- JS expression v || d on an optional number: undefined and 0 are falsy. -/
def jsOrNat : Option Nat → Nat → Nat
  | some n, d => if n = 0 then d else n
  | none, d => d

/-- A DynamoDB item of the screenshot table.  Optional fields model
attributes that may be absent from the stored item. -/
structure Record where
  id : String
  url : Option String := none
  status : String
  s3Url : Option String := none
  s3Key : Option String := none
  errorMessage : Option String := none
  width : Option Nat := none
  height : Option Nat := none
  format : Option String := none
  createdAt : Option Nat := none
  updatedAt : Option Nat := none
  deriving Repr, DecidableEq

/-- The record store: list of items, at most one per id in reachable states. -/
abbrev Store := List Record

/-- Point read by primary key. -/
def lookupRecord (s : Store) (id : String) : Option Record :=
  s.find? (fun r => r.id == id)

/-- DynamoDB PutCommand / UpdateCommand write-back: replace the item with
this id when present, append it otherwise. -/
def putRecord (s : Store) (item : Record) : Store :=
  if (lookupRecord s item.id).isSome then
    s.map (fun r => if r.id == item.id then item else r)
  else
    s ++ [item]

/-- The updates object accepted by updateScreenshotStatus.  Callers may
supply any of these fields; the UpdateExpression decides what is written. -/
structure StatusUpdates where
  s3Url : Option String := none
  s3Key : Option String := none
  errorMessage : Option String := none
  width : Option Nat := none
  height : Option Nat := none
  format : Option String := none
  deriving Repr, DecidableEq

/-- Return value of updateScreenshotStatus: success flag plus ALL_NEW item. -/
structure UpdateResult where
  success : Bool
  item : Record
  deriving Repr, DecidableEq

/-- dynamodbService.updateScreenshotStatus: UpdateCommand with
UpdateExpression SET status, updatedAt, s3Url, s3Key, errorMessage.
It always writes those five attributes (s3Url, s3Key, errorMessage from
updates.x || null) and never touches any other attribute; on a missing key
the UpdateCommand upserts a fresh item holding only the SET attributes. -/
def updateScreenshotStatus (s : Store) (id status : String) (u : StatusUpdates) (now : Nat) :
    Store × UpdateResult :=
  let item : Record :=
    match lookupRecord s id with
    | some r =>
      { r with status := status, updatedAt := some now,
               s3Url := orNull u.s3Url, s3Key := orNull u.s3Key,
               errorMessage := orNull u.errorMessage }
    | none =>
      { id := id, status := status, updatedAt := some now,
        s3Url := orNull u.s3Url, s3Key := orNull u.s3Key,
        errorMessage := orNull u.errorMessage }
  (putRecord s item, { success := true, item := item })

/-- Data argument of dynamodbService.saveScreenshotResult. -/
structure SaveData where
  screenshotId : String
  url : Option String := none
  s3Url : Option String := none
  s3Key : Option String := none
  status : String
  width : Option Nat := none
  height : Option Nat := none
  format : Option String := none
  errorMessage : Option String := none
  deriving Repr, DecidableEq

/-- Error taxonomy of the record-store adapter surfaced to callers. -/
inductive DbError where
  | alreadyExists
  deriving Repr, DecidableEq

/-- The item object built by saveScreenshotResult before the put. -/
def saveItem (d : SaveData) (now : Nat) : Record :=
  { id := d.screenshotId, url := d.url, status := d.status,
    s3Url := orNull d.s3Url, s3Key := orNull d.s3Key, errorMessage := d.errorMessage,
    width := d.width, height := d.height, format := d.format,
    createdAt := some now, updatedAt := some now }

/-- dynamodbService.saveScreenshotResult: PutCommand, with the conditional
expression attribute_not_exists(id) added exactly when options.onlyIfNotExists
is set; only then can ConditionalCheckFailedException (alreadyExists) occur. -/
def saveScreenshotResult (s : Store) (d : SaveData) (onlyIfNotExists : Bool) (now : Nat) :
    Except DbError (Store × Record) :=
  if onlyIfNotExists && (lookupRecord s d.screenshotId).isSome then
    Except.error DbError.alreadyExists
  else
    Except.ok (putRecord s (saveItem d now), saveItem d now)

/-- dynamodbService.getScreenshot: GetCommand keyed by id.  A missing or
empty id fails at the client (dynamoKeyError); otherwise the point read
returns the item or null. -/
def getScreenshot (s : Store) (id? : Option String) : Except String (Option Record) :=
  match id? with
  | none => Except.error dynamoKeyError
  | some id => if id = "" then Except.error dynamoKeyError else Except.ok (lookupRecord s id)

/-- Processing start used by the staleness check:
new Date(existingScreenshot.updatedAt || existingScreenshot.createdAt). -/
def staleRef (r : Record) : Option Nat :=
  match r.updatedAt with
  | some t => some t
  | none => r.createdAt

/-- The skip side of the staleness test: now - start > 10 min means stale
(proceed); anything else, including an invalid start date, means the record
is considered freshly owned and the message is skipped. -/
def isFresh (r : Record) (now : Nat) : Bool :=
  match staleRef r with
  | some t => now - t ≤ T_staleMs
  | none => true

/-- Characters of the scheme literal https://. -/
def httpsChars : List Char := "https://".toList

/-- Characters of the scheme literal http://. -/
def httpChars : List Char := "http://".toList

/-- Length of the scheme matched at the head of the list by the regex
https?:\/\/, if any (the two alternatives cannot match at one position). -/
def schemeLenAt (l : List Char) : Option Nat :=
  if httpsChars.isPrefixOf l then some 8
  else if httpChars.isPrefixOf l then some 7
  else none

/-- Non-global String.replace of the regex https?:\/\/ by the empty string:
remove the leftmost occurrence, wherever it sits in the string. -/
def stripFirstScheme : List Char → List Char
  | [] => []
  | c :: cs =>
    match schemeLenAt (c :: cs) with
    | some n => (c :: cs).drop n
    | none => c :: stripFirstScheme cs

/-- Character sanitization of the regex [^a-zA-Z0-9] → replacement by _. -/
def sanitizeChar (c : Char) : Char :=
  if c.isAlpha || c.isDigit then c else '_'

/-- s3Service.generateScreenshotKey.  The current UTC date
(toISOString().split(T)[0]) is passed in as dateStr. -/
def generateScreenshotKey (url screenshotId format dateStr : String) : String :=
  screenshotPrefix ++ dateStr ++ "/" ++ screenshotId ++ "_" ++
    String.mk (((stripFirstScheme url.toList).map sanitizeChar).take 50) ++ "." ++ format

/-- Spec-side key derivation, following the specification words: the
sanitized url is the url minus its scheme (a scheme sits at the start of
the url), non-alphanumerics replaced by _, truncated to 50 characters. -/
def specScreenshotKey (url screenshotId format dateStr : String) : String :=
  let descheme :=
    match schemeLenAt url.toList with
    | some n => url.toList.drop n
    | none => url.toList
  "screenshots/" ++ dateStr ++ "/" ++ screenshotId ++ "_" ++
    String.mk ((descheme.map sanitizeChar).take 50) ++ "." ++ format

/-- Whether the regex https?:\/\/ matches anywhere in the list. -/
def hasSchemeOccurrence : List Char → Bool
  | [] => false
  | c :: cs => (schemeLenAt (c :: cs)).isSome || hasSchemeOccurrence cs

/-- Result object of s3Service.uploadFile: deterministic URL from
bucket, region and key. -/
structure UploadResult where
  success : Bool
  url : String
  key : String
  bucket : String
  deriving Repr, DecidableEq

/-- s3Service.uploadFile, successful case (the PUT itself is injected by
the coordinator environment). -/
def uploadFile (bucket region key : String) : UploadResult :=
  { success := true,
    url := "https://" ++ bucket ++ ".s3." ++ region ++ ".amazonaws.com/" ++ key,
    key := key, bucket := bucket }

/-- Options object of screenshotService.captureScreenshot, after the
destructuring defaults of the function itself. -/
structure CaptureOptions where
  url : String
  width : Option Nat := none
  height : Option Nat := none
  format : String := "png"
  quality : Nat := 80
  fullPage : Bool := false
  deriving Repr, DecidableEq

/-- The page operations performed by one captureScreenshot call: the
viewport, user agent and the exact URL handed to page.goto.  No URL
rewriting happens anywhere in captureScreenshot. -/
structure CaptureCall where
  gotoUrl : String
  width : Nat
  height : Nat
  deviceScaleFactor : Nat
  format : String
  fullPage : Bool
  deriving Repr, DecidableEq

/-- screenshotService.captureScreenshot: viewport defaults come from
config; page.goto receives options.url unchanged. -/
def captureScreenshot (o : CaptureOptions) : CaptureCall :=
  { gotoUrl := o.url, width := o.width.getD defaultWidth,
    height := o.height.getD defaultHeight, deviceScaleFactor := 1,
    format := o.format, fullPage := o.fullPage }

/-- JS String.prototype.trim: strip leading and trailing whitespace. -/
def jsTrim (s : String) : String :=
  String.mk (((s.toList.dropWhile Char.isWhitespace).reverse.dropWhile
    Char.isWhitespace).reverse)

/-- JS String.prototype.startsWith on whole strings. -/
def startsWithStr (s pre : String) : Bool :=
  pre.toList.isPrefixOf s.toList

/-- URL normalization of the create-screenshot lambda (the enqueuer):
trim, then prepend https:// when the trimmed url starts with neither
http:// nor https://. -/
def normalizeUrl (s : String) : String :=
  let t := jsTrim s
  if startsWithStr t "http://" || startsWithStr t "https://" then t
  else "https://" ++ t

/-- Parsed SQS message body handed to handleMessage. -/
structure MessageBody where
  url : Option String := none
  width : Option Nat := none
  height : Option Nat := none
  format : Option String := none
  quality : Option Nat := none
  fullPage : Option Bool := none
  requestId : Option String := none
  deriving Repr, DecidableEq

/-- Injected environment of one handleMessage run: the wall clock, the
current UTC date string, S3 configuration, the outcome of the browser
render, the outcome of the S3 PUT, and whether the failure-path DynamoDB
update itself succeeds. -/
structure HandleEnv where
  now : Nat
  dateStr : String
  bucket : String
  region : String
  renderResult : Except String String
  uploadResult : Except String Unit
  failedUpdateOk : Bool
  deriving Repr

/-- Observable outcome of one handleMessage run.  ack true means the
handler returned normally, so sqs-consumer deletes the message; ack false
means it threw error, so the message stays for redelivery / DLQ.
createCall records the onlyIfNotExists flag of the fallback create when
that call was made; claimed, rendered, uploaded record whether the
consumerProcessing update, captureScreenshot and uploadFile were invoked;
gotoUrl is the URL handed to the renderer. -/
structure HandleOutcome where
  ack : Bool
  error : Option String
  store : Store
  createCall : Option Bool
  claimed : Bool
  rendered : Bool
  gotoUrl : Option String
  uploaded : Bool
  deriving Repr, DecidableEq

/-- Failure path of handleMessage (the catch block): when screenshotId is
truthy, attempt the failed-status update, swallowing its own failure; then
re-throw the original error. -/
def failurePath (env : HandleEnv) (rid m : String) (cc : Option Bool)
    (uploadedFlag : Bool) (gotoU : Option String) (store2 : Store) : HandleOutcome :=
  let store3 :=
    if rid = "" then store2
    else if env.failedUpdateOk then
      (updateScreenshotStatus store2 rid "failed" { errorMessage := some m } env.now).1
    else store2
  { ack := false, error := some m, store := store3, createCall := cc,
    claimed := true, rendered := true, gotoUrl := gotoU, uploaded := uploadedFlag }

/-- Steps 3-5 of handleMessage: claim via the consumerProcessing update,
render, derive key, upload, finalize to success; any render or upload
error diverts to the failure path. -/
def proceedPath (env : HandleEnv) (msg : MessageBody) (rid url fmt : String)
    (cc : Option Bool) (store1 : Store) : HandleOutcome :=
  let store2 := (updateScreenshotStatus store1 rid "consumerProcessing"
    { width := some (jsOrNat msg.width defaultWidth),
      height := some (jsOrNat msg.height defaultHeight),
      format := some fmt } env.now).1
  let call := captureScreenshot
    { url := url, width := msg.width, height := msg.height, format := fmt,
      quality := msg.quality.getD 80, fullPage := msg.fullPage.getD false }
  match env.renderResult with
  | Except.error m => failurePath env rid m cc false (some call.gotoUrl) store2
  | Except.ok _ =>
    let key := generateScreenshotKey url rid fmt env.dateStr
    match env.uploadResult with
    | Except.error m => failurePath env rid m cc true (some call.gotoUrl) store2
    | Except.ok _ =>
      let up := uploadFile env.bucket env.region key
      let store3 := (updateScreenshotStatus store2 rid "success"
        { s3Url := some up.url, s3Key := some up.key } env.now).1
      { ack := true, error := none, store := store3, createCall := cc,
        claimed := true, rendered := true, gotoUrl := some call.gotoUrl, uploaded := true }

/-- sqsConsumer.handleMessage.  Validation checks only the url; the
requestId goes straight into the record-store read.  An absent record is
re-created with a plain put (no options object, so onlyIfNotExists is
false).  A success record, or a consumerProcessing record that is not
stale, is acknowledged without further work. -/
def handleMessage (env : HandleEnv) (store : Store) (msg : MessageBody) : HandleOutcome :=
  let fmt := msg.format.getD "png"
  if msg.url = none ∨ msg.url = some "" then
    { ack := false, error := some urlRequiredError, store := store, createCall := none,
      claimed := false, rendered := false, gotoUrl := none, uploaded := false }
  else
    let url := msg.url.getD ""
    match getScreenshot store msg.requestId with
    | Except.error m =>
      { ack := false, error := some m, store := store, createCall := none,
        claimed := false, rendered := false, gotoUrl := none, uploaded := false }
    | Except.ok existing =>
      let rid := msg.requestId.getD ""
      match existing with
      | none =>
        match saveScreenshotResult store
            { screenshotId := rid, url := some url, status := "processing",
              width := some (jsOrNat msg.width defaultWidth),
              height := some (jsOrNat msg.height defaultHeight),
              format := some fmt } false env.now with
        | Except.ok (store1, _) => proceedPath env msg rid url fmt (some false) store1
        | Except.error _ =>
          failurePath env rid "ConditionalCheckFailedException" (some false) false none store
      | some r =>
        if r.status = "success" then
          { ack := true, error := none, store := store, createCall := none,
            claimed := false, rendered := false, gotoUrl := none, uploaded := false }
        else if r.status = "consumerProcessing" ∧ isFresh r env.now = true then
          { ack := true, error := none, store := store, createCall := none,
            claimed := false, rendered := false, gotoUrl := none, uploaded := false }
        else
          proceedPath env msg rid url fmt none store

/-- Record-level invariant claimed by the specification: objectUrl and
objectKey are non-null iff the status is success, and errorMessage is
non-null iff the status is failed. -/
def recInv (r : Record) : Prop :=
  (r.s3Url ≠ none ↔ r.status = "success") ∧
  (r.s3Key ≠ none ↔ r.status = "success") ∧
  (r.errorMessage ≠ none ↔ r.status = "failed")

instance (r : Record) : Decidable (recInv r) := by
  unfold recInv
  infer_instance

/-! Concrete sample data used to instantiate the theorems below. -/

/-- Sample environment: render and upload succeed. -/
def envOkW : HandleEnv :=
  { now := 1200000, dateStr := "2026-10-11", bucket := "shots", region := "us-east-1",
    renderResult := Except.ok "bytes", uploadResult := Except.ok (), failedUpdateOk := true }

/-- Sample environment: the render fails with a non-empty message. -/
def envFailW : HandleEnv :=
  { envOkW with renderResult := Except.error "Screenshot failed" }

/-- Sample environment: the render fails with an empty message. -/
def envEmptyErrW : HandleEnv :=
  { envOkW with renderResult := Except.error "" }

/-- Sample record in status success. -/
def recSuccessW : Record :=
  { id := "r2", url := some "https://example.com", status := "success",
    s3Url := some "https://shots.s3.us-east-1.amazonaws.com/k", s3Key := some "k",
    createdAt := some 0, updatedAt := some 0 }

/-- Sample record in status consumerProcessing with updatedAt long in the past. -/
def recStaleW : Record :=
  { id := "r2", url := some "https://example.com", status := "consumerProcessing",
    createdAt := some 0, updatedAt := some 0 }

/-- Sample record in status processing. -/
def recProcW : Record :=
  { id := "r2", url := some "https://example.com", status := "processing",
    createdAt := some 0, updatedAt := some 0 }

/-- Sample message addressed at record r2. -/
def msgW : MessageBody := { url := some "https://example.com", requestId := some "r2" }

/-- Sample message with a valid url and no requestId. -/
def msg8W : MessageBody := { url := some "https://example.com" }

/-- Sample message whose url carries no scheme. -/
def msg9W : MessageBody := { url := some "example.com", requestId := some "r2" }

/-- SaveData whose key collides with recProcW. -/
def saveW : SaveData :=
  { screenshotId := "r2", url := some "https://other.example", status := "processing",
    width := some 1920, height := some 1080, format := some "png" }

/-- Sample success record for the update counterexample. -/
def recSuccW5 : Record :=
  { id := "r1", url := some "https://e.com", status := "success",
    s3Url := some "u", s3Key := some "k", createdAt := some 0, updatedAt := some 0 }

/-- Sample claim-style updates object carrying width, height and format. -/
def updW5 : StatusUpdates := { width := some 800, height := some 600, format := some "png" }

/-! Store lemmas: behaviour of the point read against the two write-back
shapes (replace in place, append). -/

theorem lookupRecord_nil (i : String) : lookupRecord [] i = none := rfl

theorem lookupRecord_cons (a : Record) (s : Store) (i : String) :
    lookupRecord (a :: s) i = if a.id = i then some a else lookupRecord s i := by
  by_cases h : a.id = i
  · rw [if_pos h]
    exact List.find?_cons_of_pos _ (by simp [h])
  · rw [if_neg h]
    exact List.find?_cons_of_neg _ (by simp [h])

theorem lookupRecord_id {s : Store} {i : String} {r : Record}
    (h : lookupRecord s i = some r) : r.id = i := by
  have := List.find?_some h
  simpa using this

theorem lookupRecord_map_replace (s : Store) (item : Record) (i : String) :
    lookupRecord (s.map (fun r => if r.id == item.id then item else r)) i =
      if i = item.id then (lookupRecord s item.id).map (fun _ => item)
      else lookupRecord s i := by
  induction s with
  | nil => simp [lookupRecord_nil]
  | cons a s ih =>
    rw [List.map_cons]
    by_cases ha : a.id = item.id
    · rw [show (if a.id == item.id then item else a) = item from by simp [ha]]
      by_cases hi : i = item.id
      · rw [lookupRecord_cons, if_pos hi.symm, if_pos hi,
            lookupRecord_cons, if_pos ha]
        simp
      · rw [lookupRecord_cons, if_neg (fun h => hi h.symm), ih, if_neg hi, if_neg hi,
            lookupRecord_cons, if_neg (ha ▸ fun h => hi h.symm)]
    · rw [show (if a.id == item.id then item else a) = a from by simp [ha]]
      by_cases hi : i = item.id
      · rw [lookupRecord_cons, if_neg (hi ▸ ha), ih, if_pos hi, if_pos hi,
            lookupRecord_cons, if_neg ha]
      · rw [lookupRecord_cons, ih, if_neg hi, if_neg hi, lookupRecord_cons]

theorem lookupRecord_putRecord (s : Store) (item : Record) (i : String) :
    lookupRecord (putRecord s item) i =
      if i = item.id then some item else lookupRecord s i := by
  unfold putRecord
  by_cases hp : (lookupRecord s item.id).isSome
  · rw [if_pos hp, lookupRecord_map_replace]
    by_cases hi : i = item.id
    · obtain ⟨a, ha⟩ := Option.isSome_iff_exists.mp hp
      simp [hi, ha]
    · simp [hi]
  · rw [if_neg hp]
    unfold lookupRecord at *
    rw [List.find?_append]
    by_cases hi : i = item.id
    · have hnone : s.find? (fun r => r.id == i) = none := by
        rw [hi]
        exact Option.not_isSome_iff_eq_none.mp hp
      rw [hnone, List.find?_cons_of_pos _ (by simp [hi]), if_pos hi]
      rfl
    · cases hfs : s.find? (fun r => r.id == i) with
      | some a => rw [if_neg hi]; rfl
      | none =>
        rw [List.find?_cons_of_neg _ (by simp [Ne.symm hi]), if_neg hi]
        rfl

theorem mem_putRecord {s : Store} {item r : Record}
    (h : r ∈ putRecord s item) : r ∈ s ∨ r = item := by
  unfold putRecord at h
  by_cases hp : (lookupRecord s item.id).isSome
  · rw [if_pos hp] at h
    obtain ⟨a, has, hfa⟩ := List.mem_map.mp h
    by_cases ha : a.id = item.id
    · rw [if_pos (by simp [ha])] at hfa
      exact Or.inr hfa.symm
    · rw [if_neg (by simp [ha])] at hfa
      exact Or.inl (hfa ▸ has)
  · rw [if_neg hp] at h
    rcases List.mem_append.mp h with h1 | h2
    · exact Or.inl h1
    · exact Or.inr (List.mem_singleton.mp h2)

/-! Behaviour of the conditional update and put. -/

theorem updateScreenshotStatus_item_id (s : Store) (id status : String)
    (u : StatusUpdates) (now : Nat) :
    ((updateScreenshotStatus s id status u now).2).item.id = id := by
  unfold updateScreenshotStatus
  cases h : lookupRecord s id with
  | some r => simp [lookupRecord_id h]
  | none => simp

theorem updateScreenshotStatus_item_fields (s : Store) (id status : String)
    (u : StatusUpdates) (now : Nat) :
    ((updateScreenshotStatus s id status u now).2).item.status = status ∧
    ((updateScreenshotStatus s id status u now).2).item.updatedAt = some now ∧
    ((updateScreenshotStatus s id status u now).2).item.s3Url = orNull u.s3Url ∧
    ((updateScreenshotStatus s id status u now).2).item.s3Key = orNull u.s3Key ∧
    ((updateScreenshotStatus s id status u now).2).item.errorMessage = orNull u.errorMessage := by
  unfold updateScreenshotStatus
  cases h : lookupRecord s id with
  | some r => simp
  | none => simp

theorem updateScreenshotStatus_lookup_self (s : Store) (id status : String)
    (u : StatusUpdates) (now : Nat) :
    lookupRecord (updateScreenshotStatus s id status u now).1 id =
      some ((updateScreenshotStatus s id status u now).2).item := by
  have hid := updateScreenshotStatus_item_id s id status u now
  unfold updateScreenshotStatus at *
  rw [lookupRecord_putRecord, if_pos hid.symm]

theorem updateScreenshotStatus_store_eq (s : Store) (id status : String)
    (u : StatusUpdates) (now : Nat) :
    (updateScreenshotStatus s id status u now).1 =
      putRecord s ((updateScreenshotStatus s id status u now).2).item := rfl

theorem saveScreenshotResult_false (s : Store) (d : SaveData) (now : Nat) :
    saveScreenshotResult s d false now =
      Except.ok (putRecord s (saveItem d now), saveItem d now) := rfl

/-! Outcome of the failure path. -/

theorem failurePath_spec (env : HandleEnv) (rid m : String) (cc : Option Bool)
    (up : Bool) (g : Option String) (store2 : Store) (hne : rid ≠ "") :
    (failurePath env rid m cc up g store2).ack = false ∧
    (failurePath env rid m cc up g store2).error = some m ∧
    (failurePath env rid m cc up g store2).claimed = true ∧
    (env.failedUpdateOk = true →
      ∃ fr, lookupRecord (failurePath env rid m cc up g store2).store rid = some fr ∧
        fr.status = "failed" ∧ fr.errorMessage = orNull (some m) ∧
        fr.s3Url = none ∧ fr.s3Key = none) := by
  refine ⟨rfl, rfl, rfl, ?_⟩
  intro hok
  unfold failurePath
  simp only [hne, hok, if_true, if_false, ite_false, ite_true]
  have hf := updateScreenshotStatus_item_fields store2 rid "failed"
    { errorMessage := some m } env.now
  refine ⟨(updateScreenshotStatus store2 rid "failed" { errorMessage := some m } env.now).2.item,
    ?_, hf.1, hf.2.2.2.2, ?_, ?_⟩
  · exact updateScreenshotStatus_lookup_self store2 rid "failed" { errorMessage := some m } env.now
  · simpa [orNull] using hf.2.2.1
  · simpa [orNull] using hf.2.2.2.1

/-! Scheme-stripping lemmas for the key derivation. -/

theorem schemeLenAt_nil : schemeLenAt [] = none := by decide

theorem stripFirstScheme_of_schemeLenAt {l : List Char} {n : Nat}
    (h : schemeLenAt l = some n) : stripFirstScheme l = l.drop n := by
  cases l with
  | nil => rw [schemeLenAt_nil] at h; cases h
  | cons c cs => simp [stripFirstScheme, h]

theorem stripFirstScheme_of_no_occurrence {l : List Char}
    (h : hasSchemeOccurrence l = false) : stripFirstScheme l = l := by
  induction l with
  | nil => rfl
  | cons c cs ih =>
    rw [hasSchemeOccurrence, Bool.or_eq_false_iff] at h
    have hnone : schemeLenAt (c :: cs) = none :=
      Option.not_isSome_iff_eq_none.mp (by simp [h.1])
    simp [stripFirstScheme, hnone, ih h.2]

/-! Preservation machinery for the record invariant. -/

theorem inv_putRecord {s : Store} {item : Record}
    (hs : ∀ r ∈ s, recInv r) (hi : recInv item) :
    ∀ r ∈ putRecord s item, recInv r := by
  intro r hr
  rcases mem_putRecord hr with h | h
  · exact hs r h
  · exact h ▸ hi

theorem updateItem_recInv (s : Store) (id : String) (u : StatusUpdates) (now : Nat)
    {status : String}
    (hcond : (orNull u.s3Url ≠ none ↔ status = "success") ∧
      (orNull u.s3Key ≠ none ↔ status = "success") ∧
      (orNull u.errorMessage ≠ none ↔ status = "failed")) :
    recInv ((updateScreenshotStatus s id status u now).2).item := by
  have hf := updateScreenshotStatus_item_fields s id status u now
  rw [recInv, hf.1, hf.2.2.1, hf.2.2.2.1, hf.2.2.2.2]
  exact hcond

theorem uploadFile_url_ne_empty (bucket region key : String) :
    (uploadFile bucket region key).url ≠ "" := by
  intro he
  have hlen := congrArg String.length he
  simp only [uploadFile, String.length_append] at hlen
  rw [show ("https://" : String).length = 8 from rfl,
      show ("" : String).length = 0 from rfl] at hlen
  omega

theorem generateScreenshotKey_ne_empty (url screenshotId format dateStr : String) :
    generateScreenshotKey url screenshotId format dateStr ≠ "" := by
  intro he
  have hlen := congrArg String.length he
  simp only [generateScreenshotKey, screenshotPrefix, String.length_append] at hlen
  rw [show ("screenshots/" : String).length = 12 from rfl,
      show ("" : String).length = 0 from rfl] at hlen
  omega

theorem failurePath_inv (env : HandleEnv) (rid m : String) (cc : Option Bool)
    (up : Bool) (g : Option String) (store2 : Store)
    (hinv2 : ∀ r ∈ store2, recInv r) (hm : m ≠ "") :
    ∀ r ∈ (failurePath env rid m cc up g store2).store, recInv r := by
  unfold failurePath
  by_cases hr0 : rid = ""
  · simpa [hr0] using hinv2
  · by_cases hok : env.failedUpdateOk
    · have hitem : recInv ((updateScreenshotStatus store2 rid "failed"
          { errorMessage := some m } env.now).2).item := by
        refine updateItem_recInv _ _ _ _ ⟨by simp [orNull], by simp [orNull], ?_⟩
        simp [orNull, hm]
      simp only [hr0, hok, if_false, if_true, ite_true, ite_false]
      rw [updateScreenshotStatus_store_eq]
      exact inv_putRecord hinv2 hitem
    · simpa [hr0, hok] using hinv2

theorem proceedPath_inv (env : HandleEnv) (msg : MessageBody) (rid url fmt : String)
    (cc : Option Bool) (store1 : Store)
    (hinv1 : ∀ r ∈ store1, recInv r)
    (hrender : ∀ m, env.renderResult = Except.error m → m ≠ "")
    (hupload : ∀ m, env.uploadResult = Except.error m → m ≠ "") :
    ∀ r ∈ (proceedPath env msg rid url fmt cc store1).store, recInv r := by
  have hclaim : recInv ((updateScreenshotStatus store1 rid "consumerProcessing"
      { width := some (jsOrNat msg.width defaultWidth),
        height := some (jsOrNat msg.height defaultHeight),
        format := some fmt } env.now).2).item := by
    exact updateItem_recInv _ _ _ _ ⟨by simp [orNull], by simp [orNull], by simp [orNull]⟩
  have hinv2 : ∀ r ∈ (updateScreenshotStatus store1 rid "consumerProcessing"
      { width := some (jsOrNat msg.width defaultWidth),
        height := some (jsOrNat msg.height defaultHeight),
        format := some fmt } env.now).1, recInv r := by
    rw [updateScreenshotStatus_store_eq]
    exact inv_putRecord hinv1 hclaim
  rcases hrr : env.renderResult with m | b
  · simp only [proceedPath, hrr]
    exact failurePath_inv env rid m cc false _ _ hinv2 (hrender m hrr)
  · rcases hur : env.uploadResult with m2 | uu
    · simp only [proceedPath, hrr, hur]
      exact failurePath_inv env rid m2 cc true _ _ hinv2 (hupload m2 hur)
    · have hsucc : recInv ((updateScreenshotStatus
          ((updateScreenshotStatus store1 rid "consumerProcessing"
            { width := some (jsOrNat msg.width defaultWidth),
              height := some (jsOrNat msg.height defaultHeight),
              format := some fmt } env.now).1) rid "success"
          { s3Url := some (uploadFile env.bucket env.region
              (generateScreenshotKey url rid fmt env.dateStr)).url,
            s3Key := some (uploadFile env.bucket env.region
              (generateScreenshotKey url rid fmt env.dateStr)).key } env.now).2).item := by
        refine updateItem_recInv _ _ _ _ ⟨?_, ?_, by simp [orNull]⟩
        · simp [orNull, uploadFile_url_ne_empty env.bucket env.region
            (generateScreenshotKey url rid fmt env.dateStr)]
        · have hk := generateScreenshotKey_ne_empty url rid fmt env.dateStr
          simp [orNull, uploadFile, hk]
      simp only [proceedPath, hrr, hur]
      rw [updateScreenshotStatus_store_eq]
      exact inv_putRecord hinv2 hsucc

theorem proceedPath_goto (env : HandleEnv) (msg : MessageBody) (rid url fmt : String)
    (cc : Option Bool) (store1 : Store) :
    (proceedPath env msg rid url fmt cc store1).gotoUrl = some url := by
  rcases hrr : env.renderResult with m | b
  · simp [proceedPath, hrr, failurePath, captureScreenshot]
  · rcases hur : env.uploadResult with m2 | uu <;>
      simp [proceedPath, hrr, hur, failurePath, captureScreenshot]

/-! The claims. -/

/-- C1: a message whose record is already success, or consumerProcessing and
not stale, is acknowledged without invoking the renderer or the object store
and without writing the record store, leaving the record unchanged. -/
theorem C1_skip_ack (env : HandleEnv) (store : Store) (msg : MessageBody)
    (rid : String) (r : Record)
    (hurl : ¬(msg.url = none ∨ msg.url = some ""))
    (hrid : msg.requestId = some rid) (hne : rid ≠ "")
    (hget : lookupRecord store rid = some r)
    (hskip : r.status = "success" ∨
      (r.status = "consumerProcessing" ∧ isFresh r env.now = true)) :
    (handleMessage env store msg).ack = true ∧
    (handleMessage env store msg).rendered = false ∧
    (handleMessage env store msg).uploaded = false ∧
    (handleMessage env store msg).claimed = false ∧
    (handleMessage env store msg).store = store := by
  rcases hskip with hs | ⟨hcp, hf⟩
  · simp [handleMessage, hurl, hrid, getScreenshot, hne, hget, hs]
  · simp [handleMessage, hurl, hrid, getScreenshot, hne, hget, hcp, hf]

/-- C1 witness: a success record is skipped and left unchanged. -/
theorem C1_skip_ack_witness :
    (handleMessage envOkW [recSuccessW] msgW).ack = true ∧
    (handleMessage envOkW [recSuccessW] msgW).rendered = false ∧
    (handleMessage envOkW [recSuccessW] msgW).uploaded = false ∧
    (handleMessage envOkW [recSuccessW] msgW).claimed = false ∧
    (handleMessage envOkW [recSuccessW] msgW).store = [recSuccessW] :=
  C1_skip_ack envOkW [recSuccessW] msgW "r2" recSuccessW (by decide) (by decide)
    (by decide) (by decide) (Or.inl (by decide))

/-- C2: a consumerProcessing record is skipped exactly when the elapsed time
since updatedAt (falling back to createdAt, via staleRef) is at most
T_staleMs = 10 minutes, and is claimed (takeover) exactly when the elapsed
time exceeds 10 minutes. -/
theorem C2_staleness_boundary (env : HandleEnv) (store : Store) (msg : MessageBody)
    (rid : String) (r : Record) (t : Nat)
    (hurl : ¬(msg.url = none ∨ msg.url = some ""))
    (hrid : msg.requestId = some rid) (hne : rid ≠ "")
    (hget : lookupRecord store rid = some r)
    (hcp : r.status = "consumerProcessing")
    (href : staleRef r = some t) :
    (env.now - t ≤ T_staleMs →
      (handleMessage env store msg).ack = true ∧
      (handleMessage env store msg).claimed = false ∧
      (handleMessage env store msg).rendered = false ∧
      (handleMessage env store msg).store = store) ∧
    (T_staleMs < env.now - t →
      (handleMessage env store msg).claimed = true) := by
  constructor
  · intro hle
    have hf : isFresh r env.now = true := by
      simp [isFresh, href, hle]
    simp [handleMessage, hurl, hrid, getScreenshot, hne, hget, hcp, hf]
  · intro hgt
    have hf : isFresh r env.now = false := by
      simp only [isFresh, href, decide_eq_false_iff_not]
      omega
    have hns : ¬ r.status = "success" := by rw [hcp]; decide
    rcases hrr : env.renderResult with m | b <;>
      rcases hur : env.uploadResult with m2 | u <;>
        simp [handleMessage, hurl, hrid, getScreenshot, hne, hget, hcp, hf, hns,
          proceedPath, failurePath, hrr, hur]

/-- C2 witness: a record stale by far more than 10 minutes is claimed. -/
theorem C2_staleness_boundary_witness :
    (handleMessage envOkW [recStaleW] msgW).claimed = true :=
  (C2_staleness_boundary envOkW [recStaleW] msgW "r2" recStaleW 0 (by decide) (by decide)
    (by decide) (by decide) (by decide) (by decide)).2 (by decide)

/-- C3: evaluation at the failing input.  The fallback create inside
handleMessage runs with onlyIfNotExists = false (second conjunct of the
outcome trace); the adapter would raise alreadyExists when the flag is
true over a store already holding the key, but with the flag false the
same put silently succeeds (overwrites); the message is still acked. -/
theorem C3_unconditional_create :
    (handleMessage envOkW []
      { url := some "https://example.com", requestId := some "r9" }).createCall
        = some false ∧
    saveScreenshotResult [recProcW] saveW true 0 = Except.error DbError.alreadyExists ∧
    (saveScreenshotResult [recProcW] saveW false 0).isOk = true ∧
    (handleMessage envOkW []
      { url := some "https://example.com", requestId := some "r9" }).ack = true :=
  ⟨rfl, rfl, rfl, rfl⟩

/-- C4: when the render or the upload fails after the claim, the failed
status update is attempted with the error message, its own failure does not
replace the original error, and the original error is re-raised so the
message is not acknowledged. -/
theorem C4_failure_nack (env : HandleEnv) (store : Store) (msg : MessageBody)
    (rid : String) (r : Record) (m : String)
    (hurl : ¬(msg.url = none ∨ msg.url = some ""))
    (hrid : msg.requestId = some rid) (hne : rid ≠ "")
    (hget : lookupRecord store rid = some r)
    (hns : r.status ≠ "success")
    (hnf : ¬(r.status = "consumerProcessing" ∧ isFresh r env.now = true))
    (hfail : env.renderResult = Except.error m ∨
      ((∃ b, env.renderResult = Except.ok b) ∧ env.uploadResult = Except.error m)) :
    (handleMessage env store msg).ack = false ∧
    (handleMessage env store msg).error = some m ∧
    (handleMessage env store msg).claimed = true ∧
    (env.failedUpdateOk = true →
      ∃ fr, lookupRecord (handleMessage env store msg).store rid = some fr ∧
        fr.status = "failed" ∧ fr.errorMessage = orNull (some m) ∧
        fr.s3Url = none ∧ fr.s3Key = none) := by
  rcases hfail with hrr | ⟨⟨b, hrr⟩, hur⟩
  · have hred : handleMessage env store msg =
        failurePath env rid m none false
          (some (captureScreenshot
            { url := msg.url.getD "", width := msg.width, height := msg.height,
              format := msg.format.getD "png", quality := msg.quality.getD 80,
              fullPage := msg.fullPage.getD false }).gotoUrl)
          ((updateScreenshotStatus store rid "consumerProcessing"
            { width := some (jsOrNat msg.width defaultWidth),
              height := some (jsOrNat msg.height defaultHeight),
              format := some (msg.format.getD "png") } env.now).1) := by
      simp [handleMessage, hurl, hrid, getScreenshot, hne, hget, hns, hnf,
        proceedPath, hrr]
    rw [hred]
    exact failurePath_spec env rid m none false _ _ hne
  · have hred : handleMessage env store msg =
        failurePath env rid m none true
          (some (captureScreenshot
            { url := msg.url.getD "", width := msg.width, height := msg.height,
              format := msg.format.getD "png", quality := msg.quality.getD 80,
              fullPage := msg.fullPage.getD false }).gotoUrl)
          ((updateScreenshotStatus store rid "consumerProcessing"
            { width := some (jsOrNat msg.width defaultWidth),
              height := some (jsOrNat msg.height defaultHeight),
              format := some (msg.format.getD "png") } env.now).1) := by
      simp [handleMessage, hurl, hrid, getScreenshot, hne, hget, hns, hnf,
        proceedPath, hrr, hur]
    rw [hred]
    exact failurePath_spec env rid m none true _ _ hne

/-- C4 witness: a failing render leaves the message unacknowledged with the
original error. -/
theorem C4_failure_nack_witness :
    (handleMessage envFailW [recProcW] msgW).ack = false ∧
    (handleMessage envFailW [recProcW] msgW).error = some "Screenshot failed" :=
  have h := C4_failure_nack envFailW [recProcW] msgW "r2" recProcW "Screenshot failed"
    (by decide) (by decide) (by decide) (by decide) (by decide) (by decide)
    (Or.inl rfl)
  ⟨h.1, h.2.1⟩

/-- C5 counterexample: the claim-style update with patch width, height and
format neither stores those fields nor leaves the unpatched s3Url unchanged:
width stays absent and s3Url is nulled. -/
theorem C5_counterexample :
    ((updateScreenshotStatus [recSuccW5] "r1" "consumerProcessing" updW5 5).2).item.width
        = none ∧
    ((updateScreenshotStatus [recSuccW5] "r1" "consumerProcessing" updW5 5).2).item.s3Url
        = none ∧
    ¬(((updateScreenshotStatus [recSuccW5] "r1" "consumerProcessing" updW5 5).2).item.width
        = some 800) ∧
    ¬(((updateScreenshotStatus [recSuccW5] "r1" "consumerProcessing" updW5 5).2).item.s3Url
        = recSuccW5.s3Url) := by
  decide

/-- C5 amended: updateScreenshotStatus always sets status and updatedAt and
always overwrites s3Url, s3Key and errorMessage with the patch values (null
when absent or empty); width, height and format in the patch are ignored,
and the stored url, createdAt, width, height and format are preserved. -/
theorem C5_update_always_overwrites (s : Store) (id status : String) (u : StatusUpdates)
    (now : Nat) (r : Record) (hr : lookupRecord s id = some r) :
    ((updateScreenshotStatus s id status u now).2).item.status = status ∧
    ((updateScreenshotStatus s id status u now).2).item.updatedAt = some now ∧
    ((updateScreenshotStatus s id status u now).2).item.s3Url = orNull u.s3Url ∧
    ((updateScreenshotStatus s id status u now).2).item.s3Key = orNull u.s3Key ∧
    ((updateScreenshotStatus s id status u now).2).item.errorMessage = orNull u.errorMessage ∧
    ((updateScreenshotStatus s id status u now).2).item.width = r.width ∧
    ((updateScreenshotStatus s id status u now).2).item.height = r.height ∧
    ((updateScreenshotStatus s id status u now).2).item.format = r.format ∧
    ((updateScreenshotStatus s id status u now).2).item.url = r.url ∧
    ((updateScreenshotStatus s id status u now).2).item.createdAt = r.createdAt ∧
    lookupRecord (updateScreenshotStatus s id status u now).1 id =
      some ((updateScreenshotStatus s id status u now).2).item := by
  refine ⟨?_, ?_, ?_, ?_, ?_, ?_, ?_, ?_, ?_, ?_,
    updateScreenshotStatus_lookup_self s id status u now⟩ <;>
    · unfold updateScreenshotStatus
      rw [hr]

/-- C5 witness: the claim update keeps the stored width and nulls s3Url. -/
theorem C5_update_always_overwrites_witness :
    ((updateScreenshotStatus [recSuccW5] "r1" "consumerProcessing" updW5 5).2).item.width
        = recSuccW5.width ∧
    ((updateScreenshotStatus [recSuccW5] "r1" "consumerProcessing" updW5 5).2).item.s3Url
        = orNull updW5.s3Url :=
  have h := C5_update_always_overwrites [recSuccW5] "r1" "consumerProcessing" updW5 5
    recSuccW5 (by decide)
  ⟨h.2.2.2.2.2.1, h.2.2.1⟩

/-- C6 counterexample: on a url whose first scheme-like substring is not at
the start, the generated key differs from the key of the specification words
(the url minus its scheme). -/
theorem C6_counterexample :
    generateScreenshotKey "xhttp://y" "r1" "png" "2026-10-11" =
      "screenshots/2026-10-11/r1_xy.png" ∧
    specScreenshotKey "xhttp://y" "r1" "png" "2026-10-11" =
      "screenshots/2026-10-11/r1_xhttp___y.png" ∧
    generateScreenshotKey "xhttp://y" "r1" "png" "2026-10-11" ≠
      specScreenshotKey "xhttp://y" "r1" "png" "2026-10-11" := by
  decide

/-- C6 amended: the key is the deterministic
screenshots/date/id_sanitized.format string, where the sanitized url removes
the first occurrence of http:// or https:// anywhere; whenever the url
starts with a scheme, or contains no scheme-like substring at all, this
agrees with the specification words (url minus its scheme). -/
theorem C6_amended (url screenshotId format dateStr : String)
    (h : (schemeLenAt url.toList).isSome = true ∨ hasSchemeOccurrence url.toList = false) :
    generateScreenshotKey url screenshotId format dateStr =
      specScreenshotKey url screenshotId format dateStr := by
  have hlist : stripFirstScheme url.toList =
      (match schemeLenAt url.toList with
       | some n => url.toList.drop n
       | none => url.toList) := by
    rcases h with h | h
    · obtain ⟨n, hn⟩ := Option.isSome_iff_exists.mp h
      rw [stripFirstScheme_of_schemeLenAt hn, hn]
    · have hnone : schemeLenAt url.toList = none := by
        cases hl : url.toList with
        | nil => exact schemeLenAt_nil
        | cons c cs =>
          rw [hl] at h
          rw [hasSchemeOccurrence, Bool.or_eq_false_iff] at h
          exact Option.not_isSome_iff_eq_none.mp (by simp [h.1])
      rw [stripFirstScheme_of_no_occurrence h, hnone]
  simp only [generateScreenshotKey, specScreenshotKey, screenshotPrefix]
  rw [hlist]

/-- C6 witness: on a url that starts with its scheme the two keys agree. -/
theorem C6_amended_witness :
    generateScreenshotKey "https://example.com" "r1" "png" "2026-10-11" =
      specScreenshotKey "https://example.com" "r1" "png" "2026-10-11" :=
  C6_amended "https://example.com" "r1" "png" "2026-10-11" (Or.inl (by decide))

/-- C7 counterexample: a render failure whose error message is the empty
string reaches a failed record whose errorMessage is null, violating the
claimed iff between errorMessage and status failed. -/
theorem C7_counterexample :
    ((handleMessage envEmptyErrW [recProcW] msgW).store.map Record.status = ["failed"]) ∧
    ((handleMessage envEmptyErrW [recProcW] msgW).store.map Record.errorMessage = [none]) ∧
    ¬(∀ r ∈ (handleMessage envEmptyErrW [recProcW] msgW).store, recInv r) := by
  decide

/-- C7 amended: every coordinator-reachable record state satisfies the
invariant, provided render and upload failures carry non-empty error
messages (an empty message produces a failed record with null
errorMessage). -/
theorem C7_invariant_preserved (env : HandleEnv) (store : Store) (msg : MessageBody)
    (hinv : ∀ r ∈ store, recInv r)
    (hrender : ∀ m, env.renderResult = Except.error m → m ≠ "")
    (hupload : ∀ m, env.uploadResult = Except.error m → m ≠ "") :
    ∀ r ∈ (handleMessage env store msg).store, recInv r := by
  by_cases hurl : msg.url = none ∨ msg.url = some ""
  · simpa [handleMessage, hurl] using hinv
  · rcases hg : getScreenshot store msg.requestId with m | existing
    · simpa [handleMessage, hurl, hg] using hinv
    · rcases existing with _ | r
      · have hsave : recInv (saveItem
            { screenshotId := msg.requestId.getD "", url := some (msg.url.getD ""),
              status := "processing",
              width := some (jsOrNat msg.width defaultWidth),
              height := some (jsOrNat msg.height defaultHeight),
              format := some (msg.format.getD "png") } env.now) := by
          simp [recInv, saveItem, orNull]
        simp [handleMessage, hurl, hg, saveScreenshotResult_false]
        exact proceedPath_inv env msg _ _ _ _ _ (inv_putRecord hinv hsave) hrender hupload
      · by_cases hs : r.status = "success"
        · simpa [handleMessage, hurl, hg, hs] using hinv
        · by_cases hcp : r.status = "consumerProcessing" ∧ isFresh r env.now = true
          · simpa [handleMessage, hurl, hg, hs, hcp] using hinv
          · simp [handleMessage, hurl, hg, hs, hcp]
            exact proceedPath_inv env msg _ _ _ _ _ hinv hrender hupload

/-- C7 witness: the success record produced by a full run satisfies the
invariant. -/
theorem C7_invariant_preserved_witness :
    recInv
      { id := "r2", url := some "https://example.com", status := "success",
        s3Url := some
          "https://shots.s3.us-east-1.amazonaws.com/screenshots/2026-10-11/r2_example_com.png",
        s3Key := some "screenshots/2026-10-11/r2_example_com.png",
        createdAt := some 0, updatedAt := some 1200000 } :=
  C7_invariant_preserved envOkW [recProcW] msgW (by decide)
    (fun m hm => absurd hm (by simp [envOkW]))
    (fun m hm => absurd hm (by simp [envOkW]))
    _ (by decide)

/-- C8 counterexample: a message with a url but no requestId is not rejected
by the Malformed validation error; the record-store read fails instead
(still a nack, no render, store untouched). -/
theorem C8_counterexample :
    (handleMessage envOkW [] msg8W).ack = false ∧
    (handleMessage envOkW [] msg8W).error = some dynamoKeyError ∧
    (handleMessage envOkW [] msg8W).error ≠ some urlRequiredError ∧
    (handleMessage envOkW [] msg8W).rendered = false ∧
    (handleMessage envOkW [] msg8W).store = [] := by
  decide

/-- C8 amended: only a missing (or empty) url raises the Malformed
validation error before any record-store access; a missing requestId slips
past validation and fails at the record-store read.  In both cases the
message is not acknowledged and no claim, render, upload or record write
happens. -/
theorem C8_validation (env : HandleEnv) (store : Store) (msg : MessageBody) :
    ((msg.url = none ∨ msg.url = some "") →
      (handleMessage env store msg).ack = false ∧
      (handleMessage env store msg).error = some urlRequiredError ∧
      (handleMessage env store msg).store = store ∧
      (handleMessage env store msg).claimed = false ∧
      (handleMessage env store msg).rendered = false ∧
      (handleMessage env store msg).uploaded = false) ∧
    (¬(msg.url = none ∨ msg.url = some "") → msg.requestId = none →
      (handleMessage env store msg).ack = false ∧
      (handleMessage env store msg).error = some dynamoKeyError ∧
      (handleMessage env store msg).store = store ∧
      (handleMessage env store msg).claimed = false ∧
      (handleMessage env store msg).rendered = false ∧
      (handleMessage env store msg).uploaded = false) := by
  constructor
  · intro hurl
    simp [handleMessage, hurl]
  · intro hurl hrid
    simp [handleMessage, hurl, hrid, getScreenshot]

/-- C8 witness: a message without url nacks with the Malformed error. -/
theorem C8_validation_witness :
    (handleMessage envOkW [] { url := none, requestId := some "r2" }).error
        = some urlRequiredError ∧
    (handleMessage envOkW [] { url := none, requestId := some "r2" }).ack = false :=
  have h := (C8_validation envOkW [] { url := none, requestId := some "r2" }).1
    (Or.inl rfl)
  ⟨h.2.1, h.1⟩

/-- C9 counterexample: a scheme-less url reaches page.goto unchanged; the
enqueuer normalization would have produced the https:// form. -/
theorem C9_counterexample :
    (handleMessage envOkW [recProcW] msg9W).gotoUrl = some "example.com" ∧
    normalizeUrl "example.com" = "https://example.com" ∧
    (handleMessage envOkW [recProcW] msg9W).gotoUrl ≠ some (normalizeUrl "example.com") := by
  decide

/-- C9 amended: normalization is done by the enqueuer lambda (trim, prepend
https:// when the trimmed url starts with neither scheme); the consumer and
renderer pass the message url to page.goto unchanged. -/
theorem C9_no_consumer_normalization (env : HandleEnv) (store : Store)
    (msg : MessageBody) (u : String) (hu : msg.url = some u) :
    ((handleMessage env store msg).rendered = true →
      (handleMessage env store msg).gotoUrl = some u) ∧
    (∀ s : String,
      ((startsWithStr (jsTrim s) "http://" || startsWithStr (jsTrim s) "https://") = true →
        normalizeUrl s = jsTrim s) ∧
      ((startsWithStr (jsTrim s) "http://" || startsWithStr (jsTrim s) "https://") = false →
        normalizeUrl s = "https://" ++ jsTrim s)) := by
  constructor
  · intro hrend
    by_cases hurl : msg.url = none ∨ msg.url = some ""
    · simp [handleMessage, hurl] at hrend
    · have hgu : msg.url.getD "" = u := by rw [hu]; rfl
      rcases hg : getScreenshot store msg.requestId with m | existing
      · simp [handleMessage, hurl, hg] at hrend
      · rcases existing with _ | r
        · simp [handleMessage, hurl, hg, saveScreenshotResult_false] at hrend ⊢
          rw [hgu] at *
          exact proceedPath_goto env msg _ _ _ _ _
        · by_cases hs : r.status = "success"
          · simp [handleMessage, hurl, hg, hs] at hrend
          · by_cases hcp : r.status = "consumerProcessing" ∧ isFresh r env.now = true
            · simp [handleMessage, hurl, hg, hs, hcp] at hrend
            · simp [handleMessage, hurl, hg, hs, hcp] at hrend ⊢
              rw [hgu] at *
              exact proceedPath_goto env msg _ _ _ _ _
  · intro s
    constructor
    · intro h
      simp [normalizeUrl, h]
    · intro h
      rw [Bool.or_eq_false_iff] at h
      simp [normalizeUrl, h.1, h.2]

/-- C9 witness: the renderer navigates to the raw message url; the lambda
normalization prepends https:// to a scheme-less url. -/
theorem C9_no_consumer_normalization_witness :
    (handleMessage envOkW [recProcW] msg9W).gotoUrl = some "example.com" ∧
    normalizeUrl "example.com" = "https://" ++ jsTrim "example.com" :=
  have h := C9_no_consumer_normalization envOkW [recProcW] msg9W "example.com" rfl
  ⟨h.1 (by decide), (h.2 "example.com").2 (by decide)⟩

/-- C10: updating a missing id does not raise NotFound: the UpdateCommand
upserts a fresh item holding only id, status, updatedAt, s3Url, s3Key and
errorMessage (url, createdAt, width, height, format all absent) and the
call reports success. -/
theorem C10_upsert (s : Store) (id status : String) (u : StatusUpdates) (now : Nat)
    (habs : lookupRecord s id = none) :
    ((updateScreenshotStatus s id status u now).2).success = true ∧
    ((updateScreenshotStatus s id status u now).2).item =
      { id := id, url := none, status := status, s3Url := orNull u.s3Url,
        s3Key := orNull u.s3Key, errorMessage := orNull u.errorMessage,
        width := none, height := none, format := none,
        createdAt := none, updatedAt := some now } ∧
    (updateScreenshotStatus s id status u now).1 =
      s ++ [((updateScreenshotStatus s id status u now).2).item] := by
  refine ⟨rfl, ?_, ?_⟩
  · unfold updateScreenshotStatus
    rw [habs]
  · have hid := updateScreenshotStatus_item_id s id status u now
    rw [updateScreenshotStatus_store_eq, putRecord, hid, habs]
    simp

/-- C10 witness: upsert on an empty store produces exactly the minimal
record and succeeds. -/
theorem C10_upsert_witness :
    ((updateScreenshotStatus [] "r7" "failed" { errorMessage := some "boom" } 3).2).success
        = true ∧
    ((updateScreenshotStatus [] "r7" "failed" { errorMessage := some "boom" } 3).2).item =
      { id := "r7", url := none, status := "failed", s3Url := none, s3Key := none,
        errorMessage := some "boom", width := none, height := none, format := none,
        createdAt := none, updatedAt := some 3 } :=
  have h := C10_upsert [] "r7" "failed" { errorMessage := some "boom" } 3 (by decide)
  ⟨h.1, h.2.1⟩

end Screenshot
